import Mathlib

/-!
Verification of the Wake-on-LAN host agent (host-agent/listener.py).

The agent is a single-file Flask HTTP listener.  This file gives a shallow
embedding of its request/response behaviour:

* `YVal` models the YAML values produced by yaml.safe_load, together with
  Python truthiness, str() and int() coercions as used by the listener.
* `resolveSecret`, `resolvePort`, `resolveAllowedIps` model the module-level
  globals SECRET_TOKEN, LISTEN_PORT, ALLOWED_IPS (listener.py lines 51-56);
  an `Option` result of `none` models an uncaught Python exception at import
  time (for instance `.get` on a non-dict), which terminates the process.
* `_authorized_client` and `_check_token` model the two gates (lines 68-75);
  the routes take the relevant globals as explicit parameters.
* `route_sleep`, `route_shutdown`, `route_restart` model the privileged
  routes (lines 90-123).  Each returns the HTTP response paired with the
  number of times the power-action dispatcher was invoked, so that
  "exactly one dispatch" properties can be stated.  The host platform is the
  `system` argument (platform.system()) and `launchRaises` records whether
  subprocess.Popen raised for this request.
* `sleep_computer`, `shutdown_computer`, `restart_computer` model the three
  dispatchers (lines 126-178): the try/except that logs and swallows the
  launch error is modelled by the function being total and returning false
  when `launchRaises` is true.
* `status` models GET /status (lines 78-87); `now` is the value of
  int(time.time()) at the moment of the request.
* `load_config`, `initGlobals`, `main`, `startup` model process start
  (lines 34-48, 51-56, 181-190).
-/

namespace WolAgent

/-- A YAML value as produced by yaml.safe_load, restricted to the shapes the
listener touches (null, bool, int, str, sequence, mapping). -/
inductive YVal where
  | nullV
  | boolV (b : Bool)
  | intV (n : Int)
  | strV (s : String)
  | listV (xs : List YVal)
  | dictV (xs : List (String × YVal))

/-- Python truthiness of a value, as used by `or`, `bool(...)` and `if not`. -/
def YVal.truthy : YVal → Bool
  | .nullV => false
  | .boolV b => b
  | .intV n => n != 0
  | .strV s => !(s == "")
  | .listV xs => !xs.isEmpty
  | .dictV xs => !xs.isEmpty

/-- Python dict.get(key, default).  Returns `none` when the receiver is not a
dict: in the source that raises AttributeError, which is uncaught at import
time and kills the process. -/
def YVal.getAttr : YVal → String → YVal → Option YVal
  | .dictV xs, k, d => some ((xs.lookup k).getD d)
  | _, _, _ => none

mutual

/-- Python repr() of a value.  Scalars are rendered exactly as CPython does;
for strings we render the common case (single quotes, no escape sequences),
which is exact for every string free of quotes, backslashes and control
characters - the only strings the listener config schema carries. -/
def pyRepr : YVal → String
  | .nullV => "None"
  | .boolV true => "True"
  | .boolV false => "False"
  | .intV n => toString n
  | .strV s => "'" ++ s ++ "'"
  | .listV xs => "[" ++ pyReprList xs ++ "]"
  | .dictV xs => "\x7b" ++ pyReprDict xs ++ "\x7d"

/-- Comma-separated repr of sequence elements. -/
def pyReprList : List YVal → String
  | [] => ""
  | [x] => pyRepr x
  | x :: xs => pyRepr x ++ ", " ++ pyReprList xs

/-- Comma-separated repr of mapping items. -/
def pyReprDict : List (String × YVal) → String
  | [] => ""
  | [(k, v)] => "'" ++ k ++ "': " ++ pyRepr v
  | (k, v) :: xs => "'" ++ k ++ "': " ++ pyRepr v ++ ", " ++ pyReprDict xs

end

/-- Python str() of a value: identity on strings, repr() otherwise. -/
def pyStr : YVal → String
  | .strV s => s
  | v => pyRepr v

/-- Python int() of a value: `none` models the TypeError/ValueError raised on
values int() does not accept. -/
def pyInt : YVal → Option Int
  | .intV n => some n
  | .boolV b => some (if b then 1 else 0)
  | .strV s => s.trim.toInt?
  | _ => none

/-- SECRET_TOKEN = str(CFG.get("esp", \x7b\x7d).get("token", "")), line 53.
`none` models a crash of the module-level code (non-dict receiver). -/
def resolveSecret (cfg : YVal) : Option String := do
  let esp ← cfg.getAttr "esp" (.dictV [])
  let tok ← esp.getAttr "token" (.strV "")
  pure (pyStr tok)

/-- LISTEN_PORT = int(HOST_CFG.get("port", 8888)), lines 54-55. -/
def resolvePort (cfg : YVal) : Option Int := do
  let hostCfg ← cfg.getAttr "host" (.dictV [])
  let p ← hostCfg.getAttr "port" (.intV 8888)
  pyInt p

/-- ALLOWED_IPS = HOST_CFG.get("allowed_ips", []) or [], lines 54-56:
a falsy value (null, false, 0, empty string/sequence/mapping) is normalised
to the empty sequence by the `or`. -/
def resolveAllowedIps (cfg : YVal) : Option YVal := do
  let hostCfg ← cfg.getAttr "host" (.dictV [])
  let raw ← hostCfg.getAttr "allowed_ips" (.listV [])
  pure (if raw.truthy then raw else .listV [])

/-- The gate `_authorized_client` (lines 68-71) with the global ALLOWED_IPS
passed explicitly.  Per the config schema (spec section 6, device.yaml
host.allowed_ips: sequence of strings) the normalised allowlist is a list of
IP strings; `ip in ALLOWED_IPS` is Python list membership under string
equality. -/
def _authorized_client (ALLOWED_IPS : List String) (ip : String) : Bool :=
  if ALLOWED_IPS.isEmpty then true
  else ALLOWED_IPS.contains ip

/-- The gate `_check_token` (lines 74-75) with the global SECRET_TOKEN
passed explicitly: bool(SECRET_TOKEN) and req_token == SECRET_TOKEN. -/
def _check_token (SECRET_TOKEN : String) (req_token : String) : Bool :=
  !(SECRET_TOKEN == "") && (req_token == SECRET_TOKEN)

/-- A JSON value appearing in the listener's responses. -/
inductive JVal where
  | s (v : String)
  | n (v : Int)
deriving DecidableEq, Repr

/-- An HTTP response: status code and JSON object body (ordered key/value
pairs exactly as passed to jsonify). -/
structure Response where
  code : Nat
  body : List (String × JVal)
deriving DecidableEq, Repr

/-- sleep_computer (lines 144-160): true on a recognised OS family when the
command launch did not raise; false otherwise.  The except-branch (lines
158-160) logs and returns false, which is modelled by totality: the function
always returns a Bool, never propagates an error. -/
def sleep_computer (system : String) (launchRaises : Bool) : Bool :=
  if system == "Windows" then !launchRaises
  else if system == "Linux" then !launchRaises
  else if system == "Darwin" then !launchRaises
  else false

/-- shutdown_computer (lines 126-141), same shape as sleep_computer. -/
def shutdown_computer (system : String) (launchRaises : Bool) : Bool :=
  if system == "Windows" then !launchRaises
  else if system == "Linux" then !launchRaises
  else if system == "Darwin" then !launchRaises
  else false

/-- restart_computer (lines 163-178), same shape as sleep_computer. -/
def restart_computer (system : String) (launchRaises : Bool) : Bool :=
  if system == "Windows" then !launchRaises
  else if system == "Linux" then !launchRaises
  else if system == "Darwin" then !launchRaises
  else false

/-- GET /sleep (lines 90-99).  Returns the response paired with the number of
times sleep_computer was invoked while handling the request.  `token` is
request.args.get("token", ""): a missing query parameter arrives as "". -/
def route_sleep (SECRET_TOKEN : String) (ALLOWED_IPS : List String)
    (system : String) (launchRaises : Bool)
    (client_ip token : String) : Response × Nat :=
  if _authorized_client ALLOWED_IPS client_ip = false then
    (⟨403, [("status", .s "error"), ("message", .s "Forbidden: IP not allowed")]⟩, 0)
  else if _check_token SECRET_TOKEN token = false then
    (⟨401, [("status", .s "error"), ("message", .s "Unauthorized")]⟩, 0)
  else
    let ok := sleep_computer system launchRaises
    (if ok then ⟨200, [("status", .s "success")]⟩ else ⟨500, [("status", .s "error")]⟩, 1)

/-- GET /shutdown (lines 102-111). -/
def route_shutdown (SECRET_TOKEN : String) (ALLOWED_IPS : List String)
    (system : String) (launchRaises : Bool)
    (client_ip token : String) : Response × Nat :=
  if _authorized_client ALLOWED_IPS client_ip = false then
    (⟨403, [("status", .s "error"), ("message", .s "Forbidden: IP not allowed")]⟩, 0)
  else if _check_token SECRET_TOKEN token = false then
    (⟨401, [("status", .s "error"), ("message", .s "Unauthorized")]⟩, 0)
  else
    let ok := shutdown_computer system launchRaises
    (if ok then ⟨200, [("status", .s "success")]⟩ else ⟨500, [("status", .s "error")]⟩, 1)

/-- GET /restart (lines 114-123). -/
def route_restart (SECRET_TOKEN : String) (ALLOWED_IPS : List String)
    (system : String) (launchRaises : Bool)
    (client_ip token : String) : Response × Nat :=
  if _authorized_client ALLOWED_IPS client_ip = false then
    (⟨403, [("status", .s "error"), ("message", .s "Forbidden: IP not allowed")]⟩, 0)
  else if _check_token SECRET_TOKEN token = false then
    (⟨401, [("status", .s "error"), ("message", .s "Unauthorized")]⟩, 0)
  else
    let ok := restart_computer system launchRaises
    (if ok then ⟨200, [("status", .s "success")]⟩ else ⟨500, [("status", .s "error")]⟩, 1)

/-- GET /status (lines 78-87).  It reads no token and performs no IP check:
the handler only depends on platform facts, the configured port, and the
wall clock.  `hostname`, `system`, `os_version` are platform.node(),
platform.system(), platform.version(); `now` is int(time.time()) at the
moment of the request.  Flask jsonify responds 200. -/
def status (hostname system os_version : String)
    (LISTEN_PORT : Int) (now : Int) : Response :=
  ⟨200, [("status", .s "running"),
         ("hostname", .s hostname),
         ("os", .s system),
         ("os_version", .s os_version),
         ("port", .n LISTEN_PORT),
         ("uptime", .n now)]⟩

/-- Outcome of process start: either sys.exit / death by uncaught exception
with the given exit code, or the listener bound on the given port. -/
inductive StartupOutcome where
  | exited (code : Nat)
  | listening (port : Int)
deriving DecidableEq, Repr

/-- load_config (lines 34-48): missing file means sys.exit(1), otherwise the
parsed YAML document is returned. -/
def load_config (cfgFile : Option YVal) : Sum Nat YVal :=
  match cfgFile with
  | none => .inl 1
  | some cfg => .inr cfg

/-- The module-level globals (lines 53-56).  `none` models an uncaught
exception while computing them (which exits the process with code 1). -/
def initGlobals (CFG : YVal) : Option (String × Int × YVal) := do
  let SECRET_TOKEN ← resolveSecret CFG
  let LISTEN_PORT ← resolvePort CFG
  let ALLOWED_IPS ← resolveAllowedIps CFG
  pure (SECRET_TOKEN, LISTEN_PORT, ALLOWED_IPS)

/-- main (lines 181-190): sys.exit(1) on an empty SECRET_TOKEN, else
app.run binds the listener on LISTEN_PORT. -/
def main (SECRET_TOKEN : String) (LISTEN_PORT : Int) : StartupOutcome :=
  if SECRET_TOKEN = "" then .exited 1
  else .listening LISTEN_PORT

/-- Whole-process start: CFG = load_config() at import (line 51), then the
globals, then main().  An uncaught exception at import exits with code 1
(CPython exits 1 on an unhandled exception). -/
def startup (cfgFile : Option YVal) : StartupOutcome :=
  match load_config cfgFile with
  | .inl code => .exited code
  | .inr cfg =>
    match initGlobals cfg with
    | none => .exited 1
    | some (SECRET_TOKEN, LISTEN_PORT, _) => main SECRET_TOKEN LISTEN_PORT

/-! Helper lemmas shared by several claims. -/

/-- sleep_computer returns true exactly on a recognised OS with a clean
launch. -/
theorem sleep_computer_true_iff (system : String) (launchRaises : Bool) :
    sleep_computer system launchRaises = true ↔
      ((system = "Windows" ∨ system = "Linux" ∨ system = "Darwin") ∧
        launchRaises = false) := by
  simp only [sleep_computer]
  split_ifs with h1 h2 h3 <;> simp_all

/-- shutdown_computer returns true exactly on a recognised OS with a clean
launch. -/
theorem shutdown_computer_true_iff (system : String) (launchRaises : Bool) :
    shutdown_computer system launchRaises = true ↔
      ((system = "Windows" ∨ system = "Linux" ∨ system = "Darwin") ∧
        launchRaises = false) := by
  simp only [shutdown_computer]
  split_ifs with h1 h2 h3 <;> simp_all

/-- restart_computer returns true exactly on a recognised OS with a clean
launch. -/
theorem restart_computer_true_iff (system : String) (launchRaises : Bool) :
    restart_computer system launchRaises = true ↔
      ((system = "Windows" ∨ system = "Linux" ∨ system = "Darwin") ∧
        launchRaises = false) := by
  simp only [restart_computer]
  split_ifs with h1 h2 h3 <;> simp_all

/-- The token gate fails whenever the secret is empty or the tokens differ. -/
theorem check_token_false_of_not_match (SECRET_TOKEN token : String)
    (h : ¬(SECRET_TOKEN ≠ "" ∧ token = SECRET_TOKEN)) :
    _check_token SECRET_TOKEN token = false := by
  simp only [_check_token, Bool.and_eq_false_iff, Bool.not_eq_false',
    beq_iff_eq, Bool.not_eq_true]
  by_cases hs : SECRET_TOKEN = ""
  · exact Or.inl (by simp [hs])
  · exact Or.inr (by simp [beq_iff_eq]; intro ht; exact h ⟨hs, ht⟩)

/-- C1: on the three privileged routes, a caller that passes the IP gate but
whose token gate condition (non-empty secret and byte-for-byte equality)
fails receives 401 with status=error, message=Unauthorized, and no dispatch
happens. -/
theorem c1_token_gate_401
    (SECRET_TOKEN : String) (ALLOWED_IPS : List String)
    (system : String) (launchRaises : Bool) (client_ip token : String)
    (hip : _authorized_client ALLOWED_IPS client_ip = true)
    (htok : ¬(SECRET_TOKEN ≠ "" ∧ token = SECRET_TOKEN)) :
    route_sleep SECRET_TOKEN ALLOWED_IPS system launchRaises client_ip token
      = (⟨401, [("status", .s "error"), ("message", .s "Unauthorized")]⟩, 0) ∧
    route_shutdown SECRET_TOKEN ALLOWED_IPS system launchRaises client_ip token
      = (⟨401, [("status", .s "error"), ("message", .s "Unauthorized")]⟩, 0) ∧
    route_restart SECRET_TOKEN ALLOWED_IPS system launchRaises client_ip token
      = (⟨401, [("status", .s "error"), ("message", .s "Unauthorized")]⟩, 0) := by
  have h2 := check_token_false_of_not_match SECRET_TOKEN token htok
  refine ⟨?_, ?_, ?_⟩ <;>
    simp [route_sleep, route_shutdown, route_restart, hip, h2]

/-- C1 witness: the spec's concrete instance, token "abc123" against the
configured secret "abc123 " (trailing space), is rejected with 401. -/
theorem c1_witness :
    route_sleep "abc123 " [] "Linux" false "10.0.0.5" "abc123"
      = (⟨401, [("status", .s "error"), ("message", .s "Unauthorized")]⟩, 0) :=
  (c1_token_gate_401 "abc123 " [] "Linux" false "10.0.0.5" "abc123"
    (by decide) (by decide)).1

/-- C2: on the three privileged routes, a caller IP outside a non-empty
allowlist receives 403 with status=error, message=Forbidden, whatever token
it supplies, and no dispatch happens; and with an empty allowlist every
caller IP passes the IP gate. -/
theorem c2_ip_gate_403
    (SECRET_TOKEN : String) (ALLOWED_IPS : List String)
    (system : String) (launchRaises : Bool) (client_ip token : String)
    (hne : ALLOWED_IPS ≠ []) (hmem : client_ip ∉ ALLOWED_IPS) :
    (route_sleep SECRET_TOKEN ALLOWED_IPS system launchRaises client_ip token
      = (⟨403, [("status", .s "error"), ("message", .s "Forbidden: IP not allowed")]⟩, 0) ∧
    route_shutdown SECRET_TOKEN ALLOWED_IPS system launchRaises client_ip token
      = (⟨403, [("status", .s "error"), ("message", .s "Forbidden: IP not allowed")]⟩, 0) ∧
    route_restart SECRET_TOKEN ALLOWED_IPS system launchRaises client_ip token
      = (⟨403, [("status", .s "error"), ("message", .s "Forbidden: IP not allowed")]⟩, 0)) ∧
    ∀ ip, _authorized_client [] ip = true := by
  have hip : _authorized_client ALLOWED_IPS client_ip = false := by
    simp [_authorized_client, hne, hmem]
  refine ⟨⟨?_, ?_, ?_⟩, fun ip => rfl⟩ <;>
    simp [route_sleep, route_shutdown, route_restart, hip]

/-- C2 witness: IP 10.0.0.9 outside the allowlist that holds only 10.0.0.5
is refused with 403 even though it supplies the correct token. -/
theorem c2_witness :
    route_shutdown "s3cret" ["10.0.0.5"] "Linux" false "10.0.0.9" "s3cret"
      = (⟨403, [("status", .s "error"),
                ("message", .s "Forbidden: IP not allowed")]⟩, 0) :=
  (c2_ip_gate_403 "s3cret" ["10.0.0.5"] "Linux" false "10.0.0.9" "s3cret"
    (by decide) (by decide)).1.2.1

/-- C3: a request that passes both gates calls its dispatcher exactly once,
and when the OS family is recognised and the launch does not raise, the
response is 200 with status=success. -/
theorem c3_success_dispatch_once
    (SECRET_TOKEN : String) (ALLOWED_IPS : List String)
    (system : String) (launchRaises : Bool) (client_ip token : String)
    (hip : _authorized_client ALLOWED_IPS client_ip = true)
    (hsec : SECRET_TOKEN ≠ "") (htok : token = SECRET_TOKEN)
    (hos : system = "Windows" ∨ system = "Linux" ∨ system = "Darwin")
    (hr : launchRaises = false) :
    route_sleep SECRET_TOKEN ALLOWED_IPS system launchRaises client_ip token
      = (⟨200, [("status", .s "success")]⟩, 1) ∧
    route_shutdown SECRET_TOKEN ALLOWED_IPS system launchRaises client_ip token
      = (⟨200, [("status", .s "success")]⟩, 1) ∧
    route_restart SECRET_TOKEN ALLOWED_IPS system launchRaises client_ip token
      = (⟨200, [("status", .s "success")]⟩, 1) := by
  have hck : _check_token SECRET_TOKEN token = true := by
    simp [_check_token, htok, hsec]
  have h1 : sleep_computer system launchRaises = true :=
    (sleep_computer_true_iff system launchRaises).mpr ⟨hos, hr⟩
  have h2 : shutdown_computer system launchRaises = true :=
    (shutdown_computer_true_iff system launchRaises).mpr ⟨hos, hr⟩
  have h3 : restart_computer system launchRaises = true :=
    (restart_computer_true_iff system launchRaises).mpr ⟨hos, hr⟩
  refine ⟨?_, ?_, ?_⟩ <;>
    simp [route_sleep, route_shutdown, route_restart, hip, hck, h1, h2, h3]

/-- C3 witness: correct IP and exact token on a Linux host with a clean
launch yields 200 status=success with exactly one dispatch. -/
theorem c3_witness :
    route_sleep "s3cret" ["10.0.0.5"] "Linux" false "10.0.0.5" "s3cret"
      = (⟨200, [("status", JVal.s "success")]⟩, 1) :=
  (c3_success_dispatch_once "s3cret" ["10.0.0.5"] "Linux" false "10.0.0.5"
    "s3cret" (by decide) (by decide) rfl (Or.inr (Or.inl rfl)) rfl).1

/-- C4: each dispatcher returns true iff the OS family is recognised
(Windows, Linux or Darwin) and the launch did not raise - so false on an
unrecognised OS or a raising launch (the raise is swallowed: the dispatcher
still returns a Bool, modelling the logged, non-propagated error) - and the
HTTP layer maps a false dispatcher result to 500 with status=error. -/
theorem c4_dispatcher_bool_and_500 :
    (∀ (system : String) (launchRaises : Bool),
      (sleep_computer system launchRaises = true ↔
        ((system = "Windows" ∨ system = "Linux" ∨ system = "Darwin") ∧
          launchRaises = false)) ∧
      (shutdown_computer system launchRaises = true ↔
        ((system = "Windows" ∨ system = "Linux" ∨ system = "Darwin") ∧
          launchRaises = false)) ∧
      (restart_computer system launchRaises = true ↔
        ((system = "Windows" ∨ system = "Linux" ∨ system = "Darwin") ∧
          launchRaises = false))) ∧
    (∀ (SECRET_TOKEN : String) (ALLOWED_IPS : List String)
      (system : String) (launchRaises : Bool) (client_ip token : String),
      _authorized_client ALLOWED_IPS client_ip = true →
      _check_token SECRET_TOKEN token = true →
      (sleep_computer system launchRaises = false →
        route_sleep SECRET_TOKEN ALLOWED_IPS system launchRaises client_ip token
          = (⟨500, [("status", .s "error")]⟩, 1)) ∧
      (shutdown_computer system launchRaises = false →
        route_shutdown SECRET_TOKEN ALLOWED_IPS system launchRaises client_ip token
          = (⟨500, [("status", .s "error")]⟩, 1)) ∧
      (restart_computer system launchRaises = false →
        route_restart SECRET_TOKEN ALLOWED_IPS system launchRaises client_ip token
          = (⟨500, [("status", .s "error")]⟩, 1))) := by
  constructor
  · intro system launchRaises
    exact ⟨sleep_computer_true_iff system launchRaises,
      shutdown_computer_true_iff system launchRaises,
      restart_computer_true_iff system launchRaises⟩
  · intro SECRET_TOKEN ALLOWED_IPS system launchRaises client_ip token hip hck
    refine ⟨fun h => ?_, fun h => ?_, fun h => ?_⟩ <;>
      simp [route_sleep, route_shutdown, route_restart, hip, hck, h]

/-- C4 witness: an unrecognised OS family gives a false dispatcher result,
and with both gates passed the route answers 500 status=error. -/
theorem c4_witness :
    sleep_computer "FreeBSD" false = false ∧
    route_restart "s3cret" [] "FreeBSD" false "10.0.0.5" "s3cret"
      = (⟨500, [("status", JVal.s "error")]⟩, 1) := by
  have hfalse : sleep_computer "FreeBSD" false = false := by decide
  have h500 :=
    (c4_dispatcher_bool_and_500.2 "s3cret" [] "FreeBSD" false "10.0.0.5"
      "s3cret" (by decide) (by decide)).2.2 (by decide)
  exact ⟨hfalse, h500⟩

/-- C8: with the configuration and host platform fixed, each privileged
route is a function of the pair (caller IP, supplied token): both gates are
deterministic functions of that pair by construction, and whenever a gate
fails, the response does not depend on the per-request dispatch environment
(whether a launch would raise), so two gate-failing requests with the same
IP and token receive identical responses. -/
theorem c8_gate_failure_deterministic
    (SECRET_TOKEN : String) (ALLOWED_IPS : List String) (system : String)
    (launchRaises₁ launchRaises₂ : Bool) (client_ip token : String)
    (hfail : _authorized_client ALLOWED_IPS client_ip = false ∨
      _check_token SECRET_TOKEN token = false) :
    route_sleep SECRET_TOKEN ALLOWED_IPS system launchRaises₁ client_ip token
      = route_sleep SECRET_TOKEN ALLOWED_IPS system launchRaises₂ client_ip token ∧
    route_shutdown SECRET_TOKEN ALLOWED_IPS system launchRaises₁ client_ip token
      = route_shutdown SECRET_TOKEN ALLOWED_IPS system launchRaises₂ client_ip token ∧
    route_restart SECRET_TOKEN ALLOWED_IPS system launchRaises₁ client_ip token
      = route_restart SECRET_TOKEN ALLOWED_IPS system launchRaises₂ client_ip token := by
  rcases hfail with h | h
  · refine ⟨?_, ?_, ?_⟩ <;>
      simp [route_sleep, route_shutdown, route_restart, h]
  · by_cases hip : _authorized_client ALLOWED_IPS client_ip = false <;>
      refine ⟨?_, ?_, ?_⟩ <;>
      simp [route_sleep, route_shutdown, route_restart, hip, h]

/-- C8 witness: two requests with the same IP and a wrong token get the
same 401 response even when the hypothetical launch outcomes differ. -/
theorem c8_witness :
    route_sleep "s3cret" [] "Linux" true "10.0.0.5" "wrong"
      = route_sleep "s3cret" [] "Linux" false "10.0.0.5" "wrong" :=
  (c8_gate_failure_deterministic "s3cret" [] "Linux" true false "10.0.0.5"
    "wrong" (Or.inr (by decide))).1

/-- C5: when the config file is absent, or the resolved secret token is
empty, the process exits with code 1 (non-zero) and the listener never
binds, so no request is ever served in those states. -/
theorem c5_fail_fast (cfgFile : Option YVal)
    (h : cfgFile = none ∨
      ∃ cfg, cfgFile = some cfg ∧ resolveSecret cfg = some "") :
    startup cfgFile = .exited 1 ∧ ∀ port, startup cfgFile ≠ .listening port := by
  have hex : startup cfgFile = .exited 1 := by
    rcases h with h | ⟨cfg, hc, hs⟩
    · subst h; rfl
    · subst hc
      simp only [startup, load_config, initGlobals, hs, Option.bind_eq_bind,
        Option.some_bind]
      cases hp : resolvePort cfg <;> cases ha : resolveAllowedIps cfg <;>
        simp [main]
  exact ⟨hex, fun port => by simp [hex]⟩

/-- C5 witness: a config whose esp.token is the empty string makes startup
exit with code 1. -/
theorem c5_witness :
    startup (some (.dictV [("esp", .dictV [("token", .strV "")])]))
      = .exited 1 :=
  (c5_fail_fast (some (.dictV [("esp", .dictV [("token", .strV "")])]))
    (Or.inr ⟨_, rfl, rfl⟩)).1

/-- C6 counterexample: the /status response object does not have five
fields - it has six. -/
theorem c6_counterexample :
    ¬((status "host" "Linux" "6.1.0" 8888 1700000000).body.length = 5) := by
  decide

/-- C6 (amended): GET /status performs no token and no IP check (the handler
takes neither) and always returns 200 whose body holds exactly the six keys
status, hostname, os, os_version, port, uptime, with status the fixed
marker "running" and port the configured listen port. -/
theorem c6_status_shape (hostname system os_version : String)
    (LISTEN_PORT now : Int) :
    (status hostname system os_version LISTEN_PORT now).code = 200 ∧
    (status hostname system os_version LISTEN_PORT now).body.map Prod.fst
      = ["status", "hostname", "os", "os_version", "port", "uptime"] ∧
    List.lookup "status" (status hostname system os_version LISTEN_PORT now).body
      = some (.s "running") ∧
    List.lookup "port" (status hostname system os_version LISTEN_PORT now).body
      = some (.n LISTEN_PORT) := by
  refine ⟨rfl, rfl, rfl, ?_⟩
  simp [status, List.lookup]

/-- C7: the uptime field of /status carries the wall-clock epoch second at
the moment of the request (the `now` argument, int(time.time())), and for
every process start time other than now itself it differs from the elapsed
time now - startTime: it is not a process uptime. -/
theorem c7_uptime_wall_clock (hostname system os_version : String)
    (LISTEN_PORT now startTime : Int) (h0 : startTime ≠ 0) :
    List.lookup "uptime" (status hostname system os_version LISTEN_PORT now).body
      = some (.n now) ∧
    List.lookup "uptime" (status hostname system os_version LISTEN_PORT now).body
      ≠ some (.n (now - startTime)) := by
  have hl : List.lookup "uptime"
      (status hostname system os_version LISTEN_PORT now).body
      = some (.n now) := by
    simp [status, List.lookup]
  refine ⟨hl, ?_⟩
  rw [hl]
  intro hcontra
  have : now = now - startTime := by
    injection hcontra with h
    injection h
  omega

/-- C7 witness: at request time 1700000000 on a process started at epoch
second 1699990000, the reported field is 1700000000, not the elapsed
10000 seconds. -/
theorem c7_witness :
    List.lookup "uptime" (status "host" "Linux" "6.1.0" 8888 1700000000).body
      = some (JVal.n 1700000000) ∧
    List.lookup "uptime" (status "host" "Linux" "6.1.0" 8888 1700000000).body
      ≠ some (JVal.n (1700000000 - 1699990000)) :=
  c7_uptime_wall_clock "host" "Linux" "6.1.0" 8888 1700000000 1699990000
    (by decide)

/-- C9: a present but falsy host.allowed_ips value (null, false, 0, empty
string/sequence/mapping) is normalised to the empty allowlist at startup by
the `or []`, exactly as when the key is absent, and the empty allowlist
makes every caller IP pass the IP gate. -/
theorem c9_falsy_allowlist (cfg hostCfg v : YVal)
    (hh : cfg.getAttr "host" (.dictV []) = some hostCfg)
    (ha : hostCfg.getAttr "allowed_ips" (.listV []) = some v)
    (hf : v.truthy = false) :
    resolveAllowedIps cfg = some (.listV []) ∧
    resolveAllowedIps (.dictV [("host", .dictV [])]) = some (.listV []) ∧
    ∀ ip, _authorized_client [] ip = true := by
  refine ⟨?_, rfl, fun ip => rfl⟩
  simp [resolveAllowedIps, hh, ha, hf]

/-- C9 witness: host.allowed_ips explicitly null resolves to the empty
allowlist. -/
theorem c9_witness :
    resolveAllowedIps (.dictV [("host", .dictV [("allowed_ips", .nullV)])])
      = some (.listV []) :=
  (c9_falsy_allowlist
    (.dictV [("host", .dictV [("allowed_ips", .nullV)])])
    (.dictV [("allowed_ips", .nullV)]) .nullV rfl rfl rfl).1

/-- C10: the configured secret is str() of the YAML esp.token value, so a
non-string token is compared through its string rendering; in particular a
query token "123" passes the token gate against a configured YAML integer
token 123. -/
theorem c10_secret_str_coercion (cfg esp v : YVal)
    (he : cfg.getAttr "esp" (.dictV []) = some esp)
    (ht : esp.getAttr "token" (.strV "") = some v) :
    resolveSecret cfg = some (pyStr v) ∧
    resolveSecret (.dictV [("esp", .dictV [("token", .intV 123)])])
      = some "123" ∧
    _check_token "123" "123" = true := by
  refine ⟨?_, rfl, rfl⟩
  simp [resolveSecret, he, ht]

/-- C10 witness: with esp.token the YAML integer 123 the resolved secret is
the string "123" and the request token "123" passes the gate. -/
theorem c10_witness :
    resolveSecret (.dictV [("esp", .dictV [("token", .intV 123)])])
      = some "123" ∧
    _check_token "123" "123" = true :=
  (c10_secret_str_coercion
    (.dictV [("esp", .dictV [("token", .intV 123)])])
    (.dictV [("token", .intV 123)]) (.intV 123) rfl rfl).2

end WolAgent
